import Mathlib

/-!
Verification of the decomposed quantization operator library
(torch/ao/quantization/fx/_decomposed.py).

The tensor runtime's floating-point arithmetic is embedded over exact
rationals (ℚ); `torch.round` is round-half-to-even, `torch.clamp x lo hi`
is `min (max x lo) hi`, and casts to a narrow integer kind wrap into the
kind's range.  Possibly-NaN floating inputs (needed for the NaN assertion
of `quantize_per_channel_group`) are embedded as `FVal`.  Fallible
operators return `Except QErr`, where `QErr` abstracts the error kinds
raised at each entry point (Python `assert` / `ValueError` /
`IndexError` / `ZeroDivisionError` / broadcast failures).
-/

/-- Target element kinds appearing in the module. -/
inductive DType where
  | uint8
  | int8
  | int16
  | int32
  | int64
  | float16
  | bfloat16
  | float32
  | float64
  deriving DecidableEq, Repr

/-- Error kinds surfaced by the operators (abstracting the Python
assertions and exceptions). -/
inductive QErr where
  | unsupportedDtype
  | outOfRange
  | shapeMismatch
  | dtypeMismatch
  | invalidArgument
  | invalidInput
  | indexError
  | zeroDivisionError
  | broadcastError
  deriving DecidableEq, Repr

/-- `_DTYPE_TO_QVALUE_BOUNDS`: the registry of legal inclusive value
ranges for the four supported narrow kinds. -/
def dtypeBounds : DType → Option (Int × Int)
  | .uint8 => some (0, 255)
  | .int8 => some (-128, 127)
  | .int16 => some (-32768, 32767)          -- (-(2^15), 2^15 - 1)
  | .int32 => some (-2147483648, 2147483647) -- (-(2^31), 2^31 - 1)
  | _ => none

/-- `torch.round`: round half to even (banker's rounding).  The fractional
part `q - ⌊q⌋` is compared with `1/2` through the equivalent integer-free
form `2*q ≶ 2*⌊q⌋ + 1`. -/
def roundHalfEven (q : ℚ) : ℤ :=
  let f : ℤ := ⌊q⌋
  if 2 * q < 2 * (f : ℚ) + 1 then f
  else if 2 * (f : ℚ) + 1 < 2 * q then f + 1
  else if f % 2 = 0 then f else f + 1

/-- `torch.clamp` on an integer-valued tensor element:
`min (max v lo) hi`. -/
def clampInt (v lo hi : ℤ) : ℤ :=
  min (max v lo) hi

/-- `torch.clamp` on a floating tensor element. -/
def clampQ (x lo hi : ℚ) : ℚ :=
  min (max x lo) hi

/-- `.to(dtype)` on an integer-valued element: wrap into the kind's
representable range (two's-complement conversion); identity for the
non-narrow kinds. -/
def castToInt (d : DType) (v : ℤ) : ℤ :=
  match d with
  | .uint8 => v % 256
  | .int8 => (v + 128) % 256 - 128
  | .int16 => (v + 32768) % 65536 - 32768
  | .int32 => (v + 2147483648) % 4294967296 - 2147483648
  | _ => v

/-- `_quant_min_max_bounds_check`: `ValueError` for an unsupported kind,
then asserts `quant_min >= lower` and `quant_max <= upper`. -/
def quantMinMaxBoundsCheck (quant_min quant_max : ℤ) (d : DType) : Except QErr Unit :=
  match dtypeBounds d with
  | none => .error .unsupportedDtype
  | some (lo, hi) =>
    if quant_min < lo then .error .outOfRange
    else if hi < quant_max then .error .outOfRange
    else .ok ()

/-- `quantize_per_tensor`: bounds check, then
`clamp(round(input * (1/scale)) + zero_point, quant_min, quant_max).to(dtype)`.
The input is a float32 tensor embedded as a flat list of exact values. -/
def quantize_per_tensor (input : List ℚ) (scale : ℚ) (zero_point : ℤ)
    (quant_min quant_max : ℤ) (d : DType) : Except QErr (DType × List ℤ) :=
  match quantMinMaxBoundsCheck quant_min quant_max d with
  | .error e => .error e
  | .ok _ =>
    let inv_scale := 1 / scale
    .ok (d, input.map fun x =>
      castToInt d (clampInt (roundHalfEven (x * inv_scale) + zero_point) quant_min quant_max))

/-- `dequantize_per_tensor`: asserts the input's kind matches `d`, then
computes `(input.to(out_dtype) - zero_point) * scale`; `quant_min`,
`quant_max` are metadata only. -/
def dequantize_per_tensor (input : DType × List ℤ) (scale : ℚ) (zero_point : ℤ)
    (quant_min quant_max : ℤ) (d : DType) (out_dtype : Option DType) :
    Except QErr (DType × List ℚ) :=
  if input.1 ≠ d then .error .dtypeMismatch
  else
    let od := out_dtype.getD .float32
    if (dtypeBounds d).isSome then
      .ok (od, input.2.map fun q => ((q : ℚ) - (zero_point : ℚ)) * scale)
    else .error .unsupportedDtype

/-- C1: quantizing `[-1.0, 0.0, 2.5]` with scale `0.5`, zero_point `10`,
bounds `[0, 255]` and output kind uint8 yields exactly `[8, 10, 15]`, and
dequantizing that result with the same parameters returns
`[-1.0, 0.0, 2.5]` exactly. -/
theorem C1_concrete_roundtrip :
    quantize_per_tensor [-1, 0, 5 / 2] (1 / 2) 10 0 255 .uint8 =
      .ok (.uint8, [8, 10, 15]) ∧
    dequantize_per_tensor (.uint8, [8, 10, 15]) (1 / 2) 10 0 255 .uint8 none =
      .ok (.float32, [-1, 0, 5 / 2]) := by
  constructor
  · norm_num [quantize_per_tensor, quantMinMaxBoundsCheck, dtypeBounds, roundHalfEven,
      clampInt, castToInt]
  · norm_num [dequantize_per_tensor, dtypeBounds]

/-- C8: whenever `quant_max` exceeds the target kind's maximum
representable value, or `quant_min` falls below its minimum,
`quantize_per_tensor` fails with `OutOfRange` (the bounds check runs
before any arithmetic, so no output is produced). -/
theorem C8_out_of_range_bounds (input : List ℚ) (scale : ℚ) (zero_point : ℤ)
    (quant_min quant_max lo hi : ℤ) (d : DType)
    (hd : dtypeBounds d = some (lo, hi)) (hviol : hi < quant_max ∨ quant_min < lo) :
    quantize_per_tensor input scale zero_point quant_min quant_max d =
      .error .outOfRange := by
  unfold quantize_per_tensor quantMinMaxBoundsCheck
  rw [hd]
  rcases hviol with h | h
  · by_cases h1 : quant_min < lo <;> simp [h1, h]
  · simp [h]

/-- Witness for C8: quantizing with `quant_max = 300` for uint8 (whose
maximum is 255) fails with `OutOfRange`. -/
theorem C8_out_of_range_bounds_witness :
    quantize_per_tensor [1] 1 0 0 300 .uint8 = .error .outOfRange :=
  C8_out_of_range_bounds [1] 1 0 0 300 0 255 .uint8 rfl (Or.inl (by decide))

/-- C10: the quantize kernel never checks the ordering of `quant_min` and
`quant_max`: whenever both lie individually within the target kind's
range, `quantize_per_tensor` returns a tensor without raising, even when
`quant_min ≥ quant_max`. -/
theorem C10_no_minmax_order_check (input : List ℚ) (scale : ℚ) (zero_point : ℤ)
    (quant_min quant_max lo hi : ℤ) (d : DType)
    (hd : dtypeBounds d = some (lo, hi)) (hlo : lo ≤ quant_min) (hhi : quant_max ≤ hi)
    (hord : quant_max ≤ quant_min) :
    (quantize_per_tensor input scale zero_point quant_min quant_max d).isOk = true := by
  unfold quantize_per_tensor quantMinMaxBoundsCheck
  rw [hd]
  simp [not_lt.2 hlo, not_lt.2 hhi, Except.isOk, Except.toBool]

/-- Witness for C10: `quant_min = 255 ≥ quant_max = 0` (both legal for
uint8) raises no error. -/
theorem C10_no_minmax_order_check_witness :
    (quantize_per_tensor [1] 1 0 255 0 .uint8).isOk = true :=
  C10_no_minmax_order_check [1] 1 0 255 0 0 255 .uint8 rfl (by decide) (by decide)
    (by decide)

/-- A rank-2 tensor in row-major order (`data.length = rows * cols` for
well-formed tensors). -/
structure Tensor2 (α : Type) where
  rows : ℕ
  cols : ℕ
  data : List α
  deriving DecidableEq, Repr

/-- An N-dimensional tensor: shape, element kind tag and row-major data
(`data.length = shape.prod` for well-formed tensors). -/
structure Tensor (α : Type) where
  shape : List ℕ
  dtype : DType
  data : List α
  deriving DecidableEq, Repr

/-- `_permute_to_axis_zero` specialised to a rank-2 tensor and `axis = 1`:
the transposition swapping the two axes (for `axis = 0` the permutation is
the identity). -/
def transpose2 [Inhabited α] (t : Tensor2 α) : Tensor2 α :=
  ⟨t.cols, t.rows, (List.range (t.cols * t.rows)).map fun k =>
    t.data.getD ((k % t.rows) * t.cols + k / t.rows) default⟩

theorem transpose2_mem [Inhabited α] (t : Tensor2 α)
    (hwf : t.data.length = t.rows * t.cols) :
    ∀ v ∈ (transpose2 t).data, v ∈ t.data := by
  intro v hv
  simp only [transpose2, List.mem_map, List.mem_range] at hv
  obtain ⟨k, hk, rfl⟩ := hv
  have hrows : 0 < t.rows := by
    rcases Nat.eq_zero_or_pos t.rows with h | h
    · rw [h, Nat.mul_zero] at hk; omega
    · exact h
  have hi : k % t.rows < t.rows := Nat.mod_lt _ hrows
  have hj : k / t.rows < t.cols := (Nat.div_lt_iff_lt_mul hrows).2 hk
  have hidx : (k % t.rows) * t.cols + k / t.rows < t.data.length := by
    rw [hwf]
    calc (k % t.rows) * t.cols + k / t.rows
        < (k % t.rows + 1) * t.cols := by rw [Nat.succ_mul]; omega
      _ ≤ t.rows * t.cols := Nat.mul_le_mul_right _ (by omega)
  rw [List.getD_eq_getElem t.data _ hidx]
  exact List.getElem_mem hidx

/-- `quantize_per_channel`: asserts `axis < 2` (the rank of the embedded
tensor), checks the quant bounds, permutes the channel axis to the front,
then for each channel `i` computes
`clamp(round(input[i] * (1/scales[i])) + zero_points[i], quant_min,
quant_max)` and finally undoes the permutation and casts to `d`.
Indexing `scales[i]`/`zero_points[i]` past the end is Python's
`IndexError`. -/
def quantize_per_channel (input : Tensor2 ℚ) (scales : List ℚ) (zero_points : List ℤ)
    (axis : ℕ) (quant_min quant_max : ℤ) (d : DType) : Except QErr (Tensor2 ℤ) :=
  if 2 ≤ axis then .error .invalidArgument
  else match quantMinMaxBoundsCheck quant_min quant_max d with
  | .error e => .error e
  | .ok _ =>
    let x := if axis = 0 then input else transpose2 input
    if scales.length < x.rows ∨ zero_points.length < x.rows then .error .indexError
    else
      let res : Tensor2 ℤ := ⟨x.rows, x.cols, (List.range (x.rows * x.cols)).map fun k =>
        castToInt d (clampInt
          (roundHalfEven (x.data.getD k 0 * (1 / scales.getD (k / x.cols) 0))
            + zero_points.getD (k / x.cols) 0) quant_min quant_max)⟩
      .ok (if axis = 0 then res else transpose2 res)

/-- Split a flat list into consecutive chunks of `n` elements (the
`reshape(-1, n)` view used by the per-token and per-group kernels). -/
def chunksOf (n : ℕ) (l : List α) : List (List α) :=
  (List.range (l.length / n)).map fun i => (l.drop (i * n)).take n

/-- `_per_token_quant_qparam_dim_check` inlined into `quantize_per_token`:
bounds check first, then the token-count check (`ShapeMismatch`), then
`round(input / scales + zero_points).clamp(quant_min, quant_max).to(d)`
applied token-wise (each token of `trailing-dim` elements uses one
scale/zero-point pair). -/
def quantize_per_token (input : Tensor ℚ) (scales zero_points : List ℚ)
    (quant_min quant_max : ℤ) (d : DType) : Except QErr (Tensor ℤ) :=
  match quantMinMaxBoundsCheck quant_min quant_max d with
  | .error e => .error e
  | .ok _ =>
    let num_tokens := input.shape.dropLast.prod
    if scales.length ≠ num_tokens then .error .shapeMismatch
    else if zero_points.length ≠ num_tokens then .error .shapeMismatch
    else
      let n := input.shape.getLastD 1
      let toks := chunksOf n input.data
      .ok ⟨input.shape, d, ((toks.zip (scales.zip zero_points)).map fun p =>
        p.1.map fun x =>
          castToInt d (clampInt (roundHalfEven (x / p.2.1 + p.2.2))
            quant_min quant_max)).flatten⟩

theorem castToInt_clampInt_mem (d : DType) (lo hi quant_min quant_max v : ℤ)
    (hd : dtypeBounds d = some (lo, hi)) (hlo : lo ≤ quant_min)
    (hhi : quant_max ≤ hi) (hle : quant_min ≤ quant_max) :
    quant_min ≤ castToInt d (clampInt v quant_min quant_max) ∧
      castToInt d (clampInt v quant_min quant_max) ≤ quant_max := by
  have h1 : quant_min ≤ clampInt v quant_min quant_max :=
    le_min (le_trans (le_max_right v quant_min) (le_refl _)) hle
  have h2 : clampInt v quant_min quant_max ≤ quant_max := min_le_right _ _
  set w := clampInt v quant_min quant_max with hw
  have hwlo : lo ≤ w := le_trans hlo h1
  have hwhi : w ≤ hi := le_trans h2 hhi
  have hcast : castToInt d w = w := by
    cases d <;> simp only [dtypeBounds, Option.some.injEq, Prod.mk.injEq,
      reduceCtorEq] at hd
    all_goals obtain ⟨rfl, rfl⟩ := hd
    · simp only [castToInt]
      rw [Int.emod_eq_of_lt (by omega) (by omega)]
    · simp only [castToInt]
      rw [Int.emod_eq_of_lt (by omega) (by omega)]; omega
    · simp only [castToInt]
      rw [Int.emod_eq_of_lt (by omega) (by omega)]; omega
    · simp only [castToInt]
      rw [Int.emod_eq_of_lt (by omega) (by omega)]; omega
  rw [hcast]
  exact ⟨h1, h2⟩

/-- C7 (amended): for bounds accepted by `_quant_min_max_bounds_check`
and additionally satisfying `quant_min ≤ quant_max`, every element
returned by the per-tensor, per-channel and per-token quantize kernels
lies within `[quant_min, quant_max]`.  (Without `quant_min ≤ quant_max`
the interval is empty and the clamp output cannot lie inside it, see the
counterexample.) -/
theorem C7_quantize_range_invariant (d : DType) (lo hi quant_min quant_max : ℤ)
    (hd : dtypeBounds d = some (lo, hi)) (hlo : lo ≤ quant_min)
    (hhi : quant_max ≤ hi) (hle : quant_min ≤ quant_max) :
    (∀ input scale zero_point out,
      quantize_per_tensor input scale zero_point quant_min quant_max d = .ok out →
      ∀ v ∈ out.2, quant_min ≤ v ∧ v ≤ quant_max) ∧
    (∀ input scales zero_points axis out,
      quantize_per_channel input scales zero_points axis quant_min quant_max d = .ok out →
      ∀ v ∈ out.data, quant_min ≤ v ∧ v ≤ quant_max) ∧
    (∀ input scales zero_points out,
      quantize_per_token input scales zero_points quant_min quant_max d = .ok out →
      ∀ v ∈ out.data, quant_min ≤ v ∧ v ≤ quant_max) := by
  have hbc : quantMinMaxBoundsCheck quant_min quant_max d = .ok () := by
    unfold quantMinMaxBoundsCheck
    rw [hd]
    simp [not_lt.2 hlo, not_lt.2 hhi]
  refine ⟨?_, ?_, ?_⟩
  · intro input scale zero_point out h
    unfold quantize_per_tensor at h
    rw [hbc] at h
    simp only [Except.ok.injEq] at h
    subst h
    intro v hv
    simp only [List.mem_map] at hv
    obtain ⟨x, _, rfl⟩ := hv
    exact castToInt_clampInt_mem d lo hi quant_min quant_max _ hd hlo hhi hle
  · intro input scales zero_points axis out h
    unfold quantize_per_channel at h
    rw [hbc] at h
    by_cases hax : 2 ≤ axis
    · simp [hax] at h
    · simp only [hax, if_false, ite_false] at h
      set x := if axis = 0 then input else transpose2 input with hx
      by_cases hlen : scales.length < x.rows ∨ zero_points.length < x.rows
      · rw [if_pos hlen] at h
        exact absurd h (by simp)
      · rw [if_neg hlen] at h
        simp only [Except.ok.injEq] at h
        set res : Tensor2 ℤ := ⟨x.rows, x.cols, (List.range (x.rows * x.cols)).map fun k =>
          castToInt d (clampInt
            (roundHalfEven (x.data.getD k 0 * (1 / scales.getD (k / x.cols) 0))
              + zero_points.getD (k / x.cols) 0) quant_min quant_max)⟩ with hres
        have hmemres : ∀ v ∈ res.data, quant_min ≤ v ∧ v ≤ quant_max := by
          intro v hv
          rw [hres] at hv
          simp only [List.mem_map, List.mem_range] at hv
          obtain ⟨k, _, rfl⟩ := hv
          exact castToInt_clampInt_mem d lo hi quant_min quant_max _ hd hlo hhi hle
        intro v hv
        rw [← h] at hv
        by_cases h0 : axis = 0
        · rw [if_pos h0] at hv
          exact hmemres v hv
        · rw [if_neg h0] at hv
          refine hmemres v (transpose2_mem res ?_ v hv)
          rw [hres]
          simp
  · intro input scales zero_points out h
    unfold quantize_per_token at h
    rw [hbc] at h
    by_cases h1 : scales.length ≠ input.shape.dropLast.prod
    · simp [h1] at h
    · rw [if_neg h1] at h
      by_cases h2 : zero_points.length ≠ input.shape.dropLast.prod
      · simp [h2] at h
      · rw [if_neg h2] at h
        simp only [Except.ok.injEq] at h
        subst h
        intro v hv
        simp only [List.mem_flatten, List.mem_map] at hv
        obtain ⟨l, ⟨p, _, rfl⟩, hvl⟩ := hv
        simp only [List.mem_map] at hvl
        obtain ⟨y, _, rfl⟩ := hvl
        exact castToInt_clampInt_mem d lo hi quant_min quant_max _ hd hlo hhi hle

/-- Counterexample for C7 as stated: `quant_min = 200`, `quant_max = 100`
are both individually accepted by the uint8 bounds check, yet the output
element `100` does not lie within `[200, 100]` (the interval is empty). -/
theorem C7_range_counterexample :
    quantize_per_tensor [0] 1 0 200 100 .uint8 = .ok (.uint8, [100]) ∧
    ¬ ((200 : ℤ) ≤ 100 ∧ (100 : ℤ) ≤ 100) := by
  constructor
  · norm_num [quantize_per_tensor, quantMinMaxBoundsCheck, dtypeBounds, roundHalfEven,
      clampInt, castToInt]
  · decide

/-- Witness for C7: instantiating the range invariant at a concrete
per-tensor call. -/
theorem C7_quantize_range_invariant_witness :
    quantize_per_tensor [7 / 2] 1 0 0 255 .uint8 = .ok (.uint8, [4]) ∧
    ((0 : ℤ) ≤ 4 ∧ (4 : ℤ) ≤ 255) := by
  have hq : quantize_per_tensor [7 / 2] 1 0 0 255 .uint8 = .ok (.uint8, [4]) := by
    norm_num [quantize_per_tensor, quantMinMaxBoundsCheck, dtypeBounds, roundHalfEven,
      clampInt, castToInt]
  refine ⟨hq, ?_⟩
  exact (C7_quantize_range_invariant .uint8 0 255 0 255 rfl (by decide) (by decide)
    (by decide)).1 [7 / 2] 1 0 (.uint8, [4]) hq 4 (by simp)

/-- A float32 tensor element that may be NaN (needed for the NaN assertion
in `quantize_per_channel_group`; all arithmetic there happens after the
assertion, on the finite payloads). -/
inductive FVal where
  | nan : FVal
  | val : ℚ → FVal
  deriving DecidableEq, Repr

/-- `torch.isnan` on one element. -/
def FVal.isNaN : FVal → Bool
  | .nan => true
  | .val _ => false

/-- Finite payload of an element known not to be NaN. -/
def FVal.toQ : FVal → ℚ
  | .nan => 0
  | .val q => q

/-- The GPTQ single-column fallback of `quantize_per_channel_group`:
`if group_size > input.shape[-1] and scales.shape[-1] == 1: group_size =
input.shape[-1]`.  Reading `scales.shape[-1]` of a 0-dimensional tensor
is Python's `IndexError`; the `and` short-circuits, so the read happens
only when `group_size > cols`. -/
def effGroupSize (group_size cols : ℕ) (scalesShape : List ℕ) : Except QErr ℕ :=
  if group_size > cols then
    match scalesShape.getLast? with
    | none => .error .indexError
    | some m => .ok (if m = 1 then cols else group_size)
  else .ok group_size

/-- Broadcast of a `reshape(-1, 1)` parameter column against the
`(num_groups, group_size)` view: one element broadcasts to every group, a
column of `num_groups` elements maps group-wise; any other element count
is a broadcast/reshape failure. -/
def broadcastGroups [Inhabited α] (num_groups : ℕ) (p : List α) :
    Except QErr (ℕ → α) :=
  if p.length = 1 then .ok fun _ => p.headD default
  else if p.length = num_groups then .ok fun i => p.getD i default
  else .error .broadcastError

/-- `quantize_per_channel_group`: asserts `group_size > 1`, applies the
single-column fallback, asserts `input.shape[-1] % group_size == 0`
(Python raises `ZeroDivisionError` when the fallback produced group size
`0`), views the rank-2 input as `(-1, group_size)`, asserts no NaN is
present, then computes
`round(x / scale + zero_point).clamp(quant_min, quant_max).to(d)`
group-wise and reshapes back. -/
def quantize_per_channel_group (input : Tensor2 FVal) (scales : Tensor ℚ)
    (zero_points : List ℤ) (quant_min quant_max : ℤ) (d : DType)
    (group_size : ℕ) : Except QErr (Tensor2 ℤ) :=
  if ¬ 1 < group_size then .error .invalidArgument
  else match effGroupSize group_size input.cols scales.shape with
  | .error e => .error e
  | .ok gs =>
    if gs = 0 then .error .zeroDivisionError
    else if ¬ input.cols % gs = 0 then .error .shapeMismatch
    else
      let to_quant := chunksOf gs input.data
      if input.data.any FVal.isNaN then .error .invalidInput
      else match broadcastGroups to_quant.length scales.data,
                 broadcastGroups to_quant.length zero_points with
      | .ok sFn, .ok zFn =>
        .ok ⟨input.rows, input.cols, ((List.range to_quant.length).map fun i =>
          (to_quant.getD i []).map fun x =>
            castToInt d (clampInt (roundHalfEven (x.toQ / sFn i + (zFn i : ℚ)))
              quant_min quant_max)).flatten⟩
      | .error e, _ => .error e
      | _, .error e => .error e

/-- C4 (amended): for every NaN-free rank-2 input with a nonempty
trailing dimension, if `group_size` is larger than the trailing dimension
and the supplied scale/zero_point tensors hold exactly one element (last
dimension of size one), `quantize_per_channel_group` succeeds, treating
the whole trailing dimension as a single group; and for every input,
`group_size = 1` fails with `InvalidArgument`.  (The claim's unqualified
"every rank-2 input" fails on inputs containing NaN, which hit the NaN
assertion instead — see the counterexample.) -/
theorem C4_group_fallback :
    (∀ (input : Tensor2 FVal) (scales : Tensor ℚ) (zero_points : List ℤ)
      (quant_min quant_max : ℤ) (d : DType) (group_size : ℕ),
      input.data.any FVal.isNaN = false →
      0 < input.cols →
      input.cols < group_size →
      scales.shape.getLast? = some 1 →
      scales.data.length = 1 →
      zero_points.length = 1 →
      (quantize_per_channel_group input scales zero_points quant_min quant_max d
        group_size).isOk = true) ∧
    (∀ (input : Tensor2 FVal) (scales : Tensor ℚ) (zero_points : List ℤ)
      (quant_min quant_max : ℤ) (d : DType),
      quantize_per_channel_group input scales zero_points quant_min quant_max d 1 =
        .error .invalidArgument) := by
  constructor
  · intro input scales zero_points quant_min quant_max d group_size
      hnan hcols hgt hshape hsl hzl
    unfold quantize_per_channel_group
    have hg1 : 1 < group_size := lt_of_le_of_lt hcols hgt
    rw [if_neg (by omega)]
    have heff : effGroupSize group_size input.cols scales.shape = .ok input.cols := by
      unfold effGroupSize
      rw [if_pos hgt, hshape]
      simp
    rw [heff]
    dsimp only
    rw [if_neg (by omega), if_neg (by simp [Nat.mod_self])]
    rw [if_neg (by simp [hnan])]
    have hsb : broadcastGroups (chunksOf input.cols input.data).length scales.data =
        .ok fun _ => scales.data.headD default := by
      unfold broadcastGroups
      rw [if_pos hsl]
    have hzb : broadcastGroups (chunksOf input.cols input.data).length zero_points =
        .ok fun _ => zero_points.headD default := by
      unfold broadcastGroups
      rw [if_pos hzl]
    rw [hsb, hzb]
    rfl
  · intro input scales zero_points quant_min quant_max d
    unfold quantize_per_channel_group
    rw [if_pos (by omega)]

/-- Counterexample for C4 as stated: a rank-2 input containing NaN meets
the fallback conditions (`group_size = 4` exceeds the trailing dimension
`2`, one scale/zero-point element), yet the call fails with
`InvalidInput` instead of succeeding. -/
theorem C4_group_fallback_counterexample :
    quantize_per_channel_group ⟨1, 2, [.nan, .val 1]⟩ ⟨[1], .float32, [1]⟩ [0]
      (-128) 127 .int8 4 = .error .invalidInput := by
  rfl

/-- Witness for C4: the fallback succeeds on a NaN-free 1×2 input with
`group_size = 4`, and `group_size = 1` is rejected. -/
theorem C4_group_fallback_witness :
    (quantize_per_channel_group ⟨1, 2, [.val 1, .val 2]⟩ ⟨[1], .float32, [1]⟩ [0]
      (-128) 127 .int8 4).isOk = true ∧
    quantize_per_channel_group ⟨1, 2, [.val 1, .val 2]⟩ ⟨[1], .float32, [1]⟩ [0]
      (-128) 127 .int8 1 = .error .invalidArgument :=
  ⟨C4_group_fallback.1 ⟨1, 2, [.val 1, .val 2]⟩ ⟨[1], .float32, [1]⟩ [0]
      (-128) 127 .int8 4 rfl (by decide) (by decide) rfl rfl rfl,
    C4_group_fallback.2 ⟨1, 2, [.val 1, .val 2]⟩ ⟨[1], .float32, [1]⟩ [0]
      (-128) 127 .int8⟩

/-- C9 (amended): for every rank-2 input containing a NaN element that
passes the structural checks (`group_size > 1`, fallback-adjusted group
size nonzero and dividing the trailing dimension),
`quantize_per_channel_group` fails with `InvalidInput`; for every
NaN-free input passing those checks whose scale/zero_point element counts
broadcast against the group view, it succeeds.  (As stated the claim
fails: a NaN input with `group_size = 1` dies earlier with
`InvalidArgument` — see the counterexample.) -/
theorem C9_nan_check :
    (∀ (input : Tensor2 FVal) (scales : Tensor ℚ) (zero_points : List ℤ)
      (quant_min quant_max : ℤ) (d : DType) (group_size gs : ℕ),
      1 < group_size →
      effGroupSize group_size input.cols scales.shape = .ok gs →
      gs ≠ 0 →
      input.cols % gs = 0 →
      input.data.any FVal.isNaN = true →
      quantize_per_channel_group input scales zero_points quant_min quant_max d
        group_size = .error .invalidInput) ∧
    (∀ (input : Tensor2 FVal) (scales : Tensor ℚ) (zero_points : List ℤ)
      (quant_min quant_max : ℤ) (d : DType) (group_size gs : ℕ),
      1 < group_size →
      effGroupSize group_size input.cols scales.shape = .ok gs →
      gs ≠ 0 →
      input.cols % gs = 0 →
      input.data.any FVal.isNaN = false →
      (scales.data.length = 1 ∨
        scales.data.length = (chunksOf gs input.data).length) →
      (zero_points.length = 1 ∨
        zero_points.length = (chunksOf gs input.data).length) →
      (quantize_per_channel_group input scales zero_points quant_min quant_max d
        group_size).isOk = true) := by
  constructor
  · intro input scales zero_points quant_min quant_max d group_size gs
      hg1 heff hgs hdvd hnan
    unfold quantize_per_channel_group
    rw [if_neg (by omega), heff]
    dsimp only
    rw [if_neg hgs, if_neg (by simp [hdvd]), if_pos (by simp [hnan])]
  · intro input scales zero_points quant_min quant_max d group_size gs
      hg1 heff hgs hdvd hnan hs hz
    unfold quantize_per_channel_group
    rw [if_neg (by omega), heff]
    dsimp only
    rw [if_neg hgs, if_neg (by simp [hdvd]), if_neg (by simp [hnan])]
    have hsb : ∃ f, broadcastGroups (chunksOf gs input.data).length scales.data =
        .ok f := by
      unfold broadcastGroups
      rcases hs with h | h
      · exact ⟨_, by rw [if_pos h]⟩
      · by_cases h1 : scales.data.length = 1
        · exact ⟨_, by rw [if_pos h1]⟩
        · exact ⟨_, by rw [if_neg h1, if_pos h]⟩
    have hzb : ∃ f, broadcastGroups (chunksOf gs input.data).length zero_points =
        .ok f := by
      unfold broadcastGroups
      rcases hz with h | h
      · exact ⟨_, by rw [if_pos h]⟩
      · by_cases h1 : zero_points.length = 1
        · exact ⟨_, by rw [if_pos h1]⟩
        · exact ⟨_, by rw [if_neg h1, if_pos h]⟩
    obtain ⟨sf, hsf⟩ := hsb
    obtain ⟨zf, hzf⟩ := hzb
    rw [hsf, hzf]
    rfl

/-- Counterexample for C9 as stated: a rank-2 input containing NaN called
with `group_size = 1` fails with `InvalidArgument` (the group-size
assertion fires first), not `InvalidInput`. -/
theorem C9_nan_counterexample :
    quantize_per_channel_group ⟨1, 2, [.nan, .val 2]⟩ ⟨[1], .float32, [1]⟩ [0]
      (-128) 127 .int8 1 = .error .invalidArgument ∧
    QErr.invalidArgument ≠ QErr.invalidInput := by
  exact ⟨rfl, by decide⟩

/-- Witness for C9: a NaN input passing the structural checks fails with
`InvalidInput`, and a NaN-free one succeeds. -/
theorem C9_nan_check_witness :
    quantize_per_channel_group ⟨1, 2, [.nan, .val 1]⟩ ⟨[1], .float32, [1]⟩ [0]
      (-128) 127 .int8 2 = .error .invalidInput ∧
    (quantize_per_channel_group ⟨1, 2, [.val 3, .val 1]⟩ ⟨[1], .float32, [1]⟩ [0]
      (-128) 127 .int8 2).isOk = true :=
  ⟨C9_nan_check.1 ⟨1, 2, [.nan, .val 1]⟩ ⟨[1], .float32, [1]⟩ [0] (-128) 127 .int8
      2 2 (by decide) rfl (by decide) rfl rfl,
    C9_nan_check.2 ⟨1, 2, [.val 3, .val 1]⟩ ⟨[1], .float32, [1]⟩ [0] (-128) 127
      .int8 2 2 (by decide) rfl (by decide) rfl rfl (Or.inl rfl) (Or.inl rfl)⟩

/-- `input.abs().amax(dim=-1, keepdim=True)`: the per-token maximum of
absolute values; reducing over an empty trailing dimension raises, and a
0-dimensional input reduces to itself. -/
def amaxAbsLast (t : Tensor ℚ) : Except QErr (Tensor ℚ) :=
  match t.shape.getLast? with
  | none => .ok ⟨[], t.dtype, t.data.map fun x => |x|⟩
  | some n =>
    if n = 0 then .error .invalidArgument
    else .ok ⟨t.shape.dropLast ++ [1], t.dtype,
      (chunksOf n t.data).map fun c => (c.map fun x => |x|).foldl max 0⟩

/-- `choose_qparams_per_token`: per-token max-abs scales (float16 scales
are widened to float32), only the 8-bit signed target kind is supported
(`quant_max = 2^(8-1) - 1 = 127`), `scales.clamp(min=1e-5).div(127)`,
zero_points all zero. -/
def choose_qparams_per_token (input : Tensor ℚ) (d : DType) :
    Except QErr (Tensor ℚ × Tensor ℚ) :=
  match amaxAbsLast input with
  | .error e => .error e
  | .ok scales0 =>
    let scales1 : Tensor ℚ :=
      if scales0.dtype = .float16 then ⟨scales0.shape, .float32, scales0.data⟩
      else scales0
    if d = .int8 then
      let quant_max : ℚ := 127
      let scales2 : Tensor ℚ := ⟨scales1.shape, scales1.dtype,
        scales1.data.map fun s => max s (1 / 100000) / quant_max⟩
      .ok (scales2, ⟨scales2.shape, scales2.dtype, scales2.data.map fun _ => 0⟩)
    else .error .unsupportedDtype

/-- The `register_fake` twin of `choose_qparams_per_token`: returns empty
tensors of shape `(1, input.size(-1))` with dtypes float64 and int64
(reading `size(-1)` of a 0-dimensional tensor raises).  Only the output
descriptors (shape and kind) are modelled, since the fake produces no
values. -/
def choose_qparams_per_token_meta (input : Tensor ℚ) (d : DType) :
    Except QErr ((List ℕ × DType) × (List ℕ × DType)) :=
  match input.shape.getLast? with
  | none => .error .indexError
  | some n => .ok (([1, n], .float64), ([1, n], .int64))

/-- C2 (amended): for input of shape `(M1,...,Mn,N)` with `N > 0`,
`choose_qparams_per_token` returns scale and zero_point tensors of shape
`(M1,...,Mn,1)` — `M1*...*Mn` elements, but not the flattened
`(M1*...*Mn, 1)` shape the claim states (see the counterexample) — and
`quantize_per_token` (given quant bounds accepted by the bounds check,
which runs first) fails with `ShapeMismatch` whenever the supplied scales
or zero_points have an element count different from `M1*...*Mn`. -/
theorem C2_per_token_shape_law (t : Tensor ℚ) (ms : List ℕ) (n : ℕ)
    (hshape : t.shape = ms ++ [n]) (hn : 0 < n) :
    ((choose_qparams_per_token t .int8).map fun p => (p.1.shape, p.2.shape)) =
      .ok (ms ++ [1], ms ++ [1]) ∧
    (∀ (scales zero_points : List ℚ) (quant_min quant_max : ℤ) (d : DType),
      (quantMinMaxBoundsCheck quant_min quant_max d).isOk = true →
      scales.length ≠ ms.prod ∨ zero_points.length ≠ ms.prod →
      quantize_per_token t scales zero_points quant_min quant_max d =
        .error .shapeMismatch) := by
  constructor
  · unfold choose_qparams_per_token amaxAbsLast
    rw [hshape, List.getLast?_concat]
    dsimp only
    rw [if_neg (by omega)]
    by_cases hdt : t.dtype = DType.float16 <;>
      simp [hdt, List.dropLast_concat, Except.map]
  · intro scales zero_points quant_min quant_max d hbc hmis
    unfold quantize_per_token
    cases hb : quantMinMaxBoundsCheck quant_min quant_max d with
    | error e => rw [hb] at hbc; simp [Except.isOk, Except.toBool] at hbc
    | ok u =>
      dsimp only
      rw [hshape, List.dropLast_concat]
      by_cases h1 : scales.length ≠ ms.prod
      · rw [if_pos h1]
      · rw [if_neg h1, if_pos (by tauto)]

/-- Counterexample for C2 as stated: for a rank-3 input of shape
`(2,2,2)` the returned scale tensor has shape `(2,2,1)`, not the claimed
`(M1*M2, 1) = (4,1)`. -/
theorem C2_shape_counterexample :
    ((choose_qparams_per_token ⟨[2, 2, 2], .float32, [0, 0, 0, 0, 0, 0, 0, 0]⟩
        .int8).map fun p => p.1.shape) = .ok [2, 2, 1] ∧
    ([2, 2, 1] : List ℕ) ≠ [4, 1] := by
  exact ⟨rfl, by decide⟩

/-- Witness for C2: a shape-`(3,2)` input yields qparams of shape
`(3,1)`, and a scales vector of the wrong element count is rejected with
`ShapeMismatch`. -/
theorem C2_per_token_shape_law_witness :
    ((choose_qparams_per_token ⟨[3, 2], .float32, [1, 2, 3, 4, 5, 6]⟩ .int8).map
        fun p => (p.1.shape, p.2.shape)) = .ok ([3, 1], [3, 1]) ∧
    quantize_per_token ⟨[3, 2], .float32, [1, 2, 3, 4, 5, 6]⟩ [1, 1] [0, 0]
      (-128) 127 .int8 = .error .shapeMismatch :=
  ⟨(C2_per_token_shape_law ⟨[3, 2], .float32, [1, 2, 3, 4, 5, 6]⟩ [3] 2 rfl
      (by decide)).1,
    (C2_per_token_shape_law ⟨[3, 2], .float32, [1, 2, 3, 4, 5, 6]⟩ [3] 2 rfl
      (by decide)).2 [1, 1] [0, 0] (-128) 127 .int8 rfl (Or.inl (by decide))⟩

/-- C3: the real kernel and its registered fake disagree.  At the
concrete float32 input of shape `(2,3)`, `choose_qparams_per_token`
returns a scale tensor of shape `(2,1)` and dtype float32 (matching its
own documented contract), while the fake entry point returns descriptors
of shape `(1,3)` with dtypes float64/int64: shape and element kind both
differ, so the shape/dtype-inference entry point does not mirror the
real-compute entry point. -/
theorem C3_fake_meta_divergence :
    ((choose_qparams_per_token ⟨[2, 3], .float32, [0, 0, 0, 0, 0, 0]⟩ .int8).map
        fun p => (p.1.shape, p.1.dtype)) = .ok ([2, 1], .float32) ∧
    choose_qparams_per_token_meta ⟨[2, 3], .float32, [0, 0, 0, 0, 0, 0]⟩ .int8 =
      .ok (([1, 3], .float64), ([1, 3], .int64)) ∧
    ¬ (([2, 1] : List ℕ) = [1, 3] ∧ DType.float32 = DType.float64) := by
  exact ⟨rfl, rfl, by decide⟩

/-- Minimum of a token (nonempty chunk); `torch.aminmax` component. -/
def listMinQ (l : List ℚ) : ℚ := l.foldl min (l.headD 0)

/-- Maximum of a token (nonempty chunk); `torch.aminmax` component. -/
def listMaxQ (l : List ℚ) : ℚ := l.foldl max (l.headD 0)

/-- `torch.aminmax(input, dim=-1, keepdim=True)`: per-token minimum and
maximum (reducing an empty trailing dimension raises; a 0-dimensional
input reduces to itself). -/
def aminmaxLast (t : Tensor ℚ) : Except QErr (Tensor ℚ × Tensor ℚ) :=
  match t.shape.getLast? with
  | none => .ok (⟨[], t.dtype, t.data⟩, ⟨[], t.dtype, t.data⟩)
  | some n =>
    if n = 0 then .error .invalidArgument
    else .ok
      (⟨t.shape.dropLast ++ [1], t.dtype, (chunksOf n t.data).map listMinQ⟩,
        ⟨t.shape.dropLast ++ [1], t.dtype, (chunksOf n t.data).map listMaxQ⟩)

/-- `torch.where(cond, a, b)` applied elementwise over aligned lists. -/
def torchWhere (cond : List Bool) (a b : List ℚ) : List ℚ :=
  ((cond.zip a).zip b).map fun p => if p.1.1 then p.1.2 else p.2

/-- `choose_qparams_per_token_asymmetric` (XNNPACK-style): hard-coded
`qmin = -128`, `qmax = 127`, per-token min/max extended to include zero,
`scale = clamp((max_val_pos - min_val_neg) / (qmax - qmin), eps)` with
`eps` the float32 machine epsilon `2^-23`, then the error-balancing
zero-point pick, clamped to `[qmin, qmax]`, rounded, returned as a
float32-typed tensor.  The `dtype` argument is accepted but unused, as in
the source. -/
def choose_qparams_per_token_asymmetric (input : Tensor ℚ) (d : DType) :
    Except QErr (Tensor ℚ × Tensor ℚ) :=
  match aminmaxLast input with
  | .error e => .error e
  | .ok (minT, maxT) =>
    let qmin : ℚ := -128
    let qmax : ℚ := 127
    let min_val_neg := minT.data.map fun m => min m 0
    let max_val_pos := maxT.data.map fun m => max m 0
    let eps : ℚ := 1 / 2 ^ 23
    let scale0 := (max_val_pos.zip min_val_neg).map fun p =>
      (p.1 - p.2) / (qmax - qmin)
    let scale1 := scale0.map fun s => max s eps
    let descaled_min := (min_val_neg.zip scale1).map fun p => p.1 / p.2
    let descaled_max := (max_val_pos.zip scale1).map fun p => p.1 / p.2
    let zero_point_from_min_error := descaled_min.map fun dm => qmin + dm
    let zero_point_from_max_error := descaled_max.map fun dm => qmax + dm
    let cond := (zero_point_from_min_error.zip zero_point_from_max_error).map
      fun p => decide (0 < p.1 + p.2)
    let branch_min := descaled_min.map fun dm => qmin - dm
    let branch_max := descaled_max.map fun dm => qmax - dm
    let zero_point0 := torchWhere cond branch_min branch_max
    let zero_point1 := zero_point0.map fun z =>
      (roundHalfEven (clampQ z qmin qmax) : ℚ)
    .ok (⟨minT.shape, .float32, scale1⟩, ⟨minT.shape, .float32, zero_point1⟩)

/-- The zero-point selection rule as the claim words it, for one token
`c`: with `qmin = -128`, `qmax = 127`,
`descaled_min = min_val_neg / scale`, `descaled_max = max_val_pos /
scale`, pick `qmin - descaled_min` when `(qmin + descaled_min) + (qmax +
descaled_max) > 0` and `qmax - descaled_max` otherwise, clamp into
`[qmin, qmax]`, round to the nearest integer. -/
def specTokenZeroPoint (c : List ℚ) : ℚ :=
  let min_val_neg := min (listMinQ c) 0
  let max_val_pos := max (listMaxQ c) 0
  let scale := max ((max_val_pos - min_val_neg) / 255) (1 / 2 ^ 23)
  let descaled_min := min_val_neg / scale
  let descaled_max := max_val_pos / scale
  let z := if 0 < (-128 + descaled_min) + (127 + descaled_max)
    then -128 - descaled_min else 127 - descaled_max
  (roundHalfEven (clampQ z (-128) 127) : ℚ)

/-- C6: for every floating-point input (shape `(M1,...,Mn,N)`, `N > 0`),
`choose_qparams_per_token_asymmetric` returns each token's zero_point as
the error-balancing pick `qmin - descaled_min` when
`(qmin + descaled_min) + (qmax + descaled_max) > 0` and
`qmax - descaled_max` otherwise, clamped into `[qmin, qmax]` and rounded
to the nearest integer, in a float-typed tensor. -/
theorem C6_asymmetric_zero_point_formula (t : Tensor ℚ) (ms : List ℕ) (n : ℕ)
    (hshape : t.shape = ms ++ [n]) (hn : 0 < n) :
    ((choose_qparams_per_token_asymmetric t .int8).map fun p => p.2.dtype) =
      .ok .float32 ∧
    (∀ (i : ℕ) (c : List ℚ), (chunksOf n t.data)[i]? = some c →
      ((choose_qparams_per_token_asymmetric t .int8).map fun p =>
          p.2.data[i]?) = .ok (some (specTokenZeroPoint c))) := by
  unfold choose_qparams_per_token_asymmetric aminmaxLast
  rw [hshape, List.getLast?_concat]
  dsimp only
  rw [if_neg (by omega)]
  dsimp only
  constructor
  · rfl
  · intro i c hc
    simp only [Except.map, torchWhere, List.zip_map', List.map_map, Function.comp,
      List.getElem?_map, hc, Option.map_some', Except.ok.injEq, Option.some.injEq]
    rw [show (127 : ℚ) - -128 = 255 by norm_num]
    simp only [specTokenZeroPoint, decide_eq_true_eq]

/-- Witness for C6: the zero-point formula evaluated on the single token
`[1, -2]`. -/
theorem C6_asymmetric_zero_point_formula_witness :
    ((choose_qparams_per_token_asymmetric ⟨[1, 2], .float32, [1, -2]⟩ .int8).map
        fun p => p.2.data[0]?) = .ok (some (specTokenZeroPoint [1, -2])) :=
  (C6_asymmetric_zero_point_formula ⟨[1, 2], .float32, [1, -2]⟩ [1] 2 rfl
    (by decide)).2 0 [1, -2] rfl

theorem getD_range_map (n k : ℕ) (f : ℕ → α) (d : α) (hk : k < n) :
    ((List.range n).map f).getD k d = f k := by
  rw [List.getD_eq_getElem _ d (by simpa using hk)]
  simp

theorem getD_zipWith (f : α → β → γ) (l1 : List α) (l2 : List β) (k : ℕ)
    (d1 : α) (d2 : β) (d3 : γ) (h1 : k < l1.length) (h2 : k < l2.length) :
    (List.zipWith f l1 l2).getD k d3 = f (l1.getD k d1) (l2.getD k d2) := by
  rw [List.getD_eq_getElem _ d3 (by simp [h1, h2]),
    List.getD_eq_getElem _ d1 h1, List.getD_eq_getElem _ d2 h2]
  simp

/-- Flat index `k` of a rank-2 tensor belongs to channel `k / cols` when
the channel axis is 0 and to channel `k % cols` when it is 1 (the
broadcast produced by `_unsqueeze_multiple`). -/
def chanIdx (cols axis k : ℕ) : ℕ :=
  if axis = 0 then k / cols else k % cols

/-- The pre-clamp value of `FakeQuantPerChannel.forward` at flat position
`k`: `temp = round(input * (1.0 / scales)) + zero_points` with the
channel's scale and zero-point. -/
def fqPre (input : Tensor2 ℚ) (scales : List ℚ) (zero_points : List ℤ)
    (axis k : ℕ) : ℚ :=
  (roundHalfEven (input.data.getD k 0 *
      (1 / scales.getD (chanIdx input.cols axis k) 0)) : ℚ)
    + (zero_points.getD (chanIdx input.cols axis k) 0 : ℚ)

/-- `FakeQuantPerChannel.forward` on a rank-2 input: validates
`axis < input.dim()`, broadcasts one scale/zero-point per channel
(an element count different from the channel count cannot broadcast),
computes `temp`, the quantize-dequantize round trip
`(clamp(temp, quant_min, quant_max) - zero_point) * scale`, and the
saturation mask `(temp >= quant_min) and (temp <= quant_max)` saved for
the backward pass. -/
def fake_quant_per_channel_forward (input : Tensor2 ℚ) (scales : List ℚ)
    (zero_points : List ℤ) (axis : ℕ) (quant_min quant_max : ℤ) :
    Except QErr (List ℚ × List Bool) :=
  if 2 ≤ axis then .error .invalidArgument
  else
    let nch := if axis = 0 then input.rows else input.cols
    if scales.length ≠ nch ∨ zero_points.length ≠ nch then .error .broadcastError
    else
      .ok ((List.range (input.rows * input.cols)).map fun k =>
          (clampQ (fqPre input scales zero_points axis k) quant_min quant_max
            - (zero_points.getD (chanIdx input.cols axis k) 0 : ℚ))
            * scales.getD (chanIdx input.cols axis k) 0,
        (List.range (input.rows * input.cols)).map fun k =>
          decide ((quant_min : ℚ) ≤ fqPre input scales zero_points axis k ∧
            fqPre input scales zero_points axis k ≤ (quant_max : ℚ)))

/-- `FakeQuantPerChannel.backward`: `gy * mask` (the straight-through
estimator; a false mask entry multiplies by zero). -/
def fake_quant_per_channel_backward (gy : List ℚ) (mask : List Bool) : List ℚ :=
  List.zipWith (fun g m => g * (if m then 1 else 0)) gy mask

/-- C5: wherever the forward pass's pre-clamp value
`pre = round(input/scale) + zero_point` falls outside
`[quant_min, quant_max]`, the backward gradient is exactly `0`; wherever
`pre` lies within the bounds, the backward gradient equals the incoming
`grad_output` unchanged. -/
theorem C5_fake_quant_gradient_mask (input : Tensor2 ℚ) (scales : List ℚ)
    (zero_points : List ℤ) (axis : ℕ) (quant_min quant_max : ℤ)
    (out : List ℚ) (mask : List Bool) (gy : List ℚ) (k : ℕ)
    (hfwd : fake_quant_per_channel_forward input scales zero_points axis
      quant_min quant_max = .ok (out, mask))
    (hlen : gy.length = input.rows * input.cols)
    (hk : k < input.rows * input.cols) :
    ((fqPre input scales zero_points axis k < quant_min ∨
        (quant_max : ℚ) < fqPre input scales zero_points axis k) →
      (fake_quant_per_channel_backward gy mask).getD k 0 = 0) ∧
    (((quant_min : ℚ) ≤ fqPre input scales zero_points axis k ∧
        fqPre input scales zero_points axis k ≤ (quant_max : ℚ)) →
      (fake_quant_per_channel_backward gy mask).getD k 0 =
        gy.getD k 0) := by
  unfold fake_quant_per_channel_forward at hfwd
  by_cases hax : 2 ≤ axis
  · simp [hax] at hfwd
  · rw [if_neg hax] at hfwd
    dsimp only at hfwd
    by_cases hsl : scales.length ≠ (if axis = 0 then input.rows else input.cols) ∨
        zero_points.length ≠ (if axis = 0 then input.rows else input.cols)
    · rw [if_pos hsl] at hfwd
      exact absurd hfwd (by simp)
    · rw [if_neg hsl] at hfwd
      simp only [Except.ok.injEq, Prod.mk.injEq] at hfwd
      obtain ⟨hout, hmask⟩ := hfwd
      have hmlen : mask.length = input.rows * input.cols := by
        rw [← hmask]; simp
      have hbd : (fake_quant_per_channel_backward gy mask).getD k 0 =
          gy.getD k 0 * (if mask.getD k false then 1 else 0) :=
        getD_zipWith _ gy mask k 0 false 0 (by omega) (by omega)
      have hmk : mask.getD k false =
          decide ((quant_min : ℚ) ≤ fqPre input scales zero_points axis k ∧
            fqPre input scales zero_points axis k ≤ (quant_max : ℚ)) := by
        rw [← hmask]
        exact getD_range_map _ _ _ _ hk
      constructor
      · intro hcond
        have hnot : ¬ ((quant_min : ℚ) ≤ fqPre input scales zero_points axis k ∧
            fqPre input scales zero_points axis k ≤ (quant_max : ℚ)) := by
          rcases hcond with h | h
          · exact fun hc => absurd hc.1 (not_le.2 h)
          · exact fun hc => absurd hc.2 (not_le.2 h)
        rw [hbd, hmk]
        simp [hnot]
      · intro hcond
        rw [hbd, hmk]
        simp [hcond]

/-- Witness for C5: input `[[10, 0]]` with scale 1, zero-point 0 and
bounds `[-1, 1]`: position 0 saturates (`pre = 10`), so its gradient is
`0`; position 1 (`pre = 0`) passes the gradient `7` through. -/
theorem C5_fake_quant_gradient_mask_witness :
    (fake_quant_per_channel_backward [5, 7] [false, true]).getD 0 0 = 0 ∧
    (fake_quant_per_channel_backward [5, 7] [false, true]).getD 1 0 = 7 := by
  have hfwd : fake_quant_per_channel_forward ⟨1, 2, [10, 0]⟩ [1] [0] 0 (-1) 1 =
      .ok ([1, 0], [false, true]) := by
    unfold fake_quant_per_channel_forward
    norm_num [List.range, List.range.loop, fqPre, chanIdx, clampQ, roundHalfEven]
  constructor
  · exact (C5_fake_quant_gradient_mask ⟨1, 2, [10, 0]⟩ [1] [0] 0 (-1) 1 [1, 0]
      [false, true] [5, 7] 0 hfwd rfl (by decide)).1
      (Or.inr (by norm_num [fqPre, chanIdx, roundHalfEven]))
  · exact (C5_fake_quant_gradient_mask ⟨1, 2, [10, 0]⟩ [1] [0] 0 (-1) 1 [1, 0]
      [false, true] [5, 7] 1 hfwd rfl (by decide)).2
      (by constructor <;> norm_num [fqPre, chanIdx, roundHalfEven])
